import Mathlib

/-!
Verification development for the Coninx delivery dispatch app
(`dispatcher.py` and `drivertest.py`).

Firestore documents are modelled as association lists from field-path keys to
string values (all values relevant to the claims are strings: statuses,
invoices, names, ISO timestamps).  Firestore's `update` with dotted field paths
(e.g. `timestamps.accepted`) merges the given field paths into a document and
leaves every other field untouched; that is modelled by `applyUpdate`.
Python string methods `.strip()` and `.lower()` are modelled by `pyStrip` and
`pyLower` on the character list of the string.
-/

deriving instance DecidableEq for Except

namespace Coninx

/-- A Firestore document: an association list from field paths to values. -/
abbrev Doc := List (String × String)

/-- Model of Python `str.strip()`: drop whitespace from both ends. -/
def pyStrip (s : String) : String :=
  ⟨((s.data.dropWhile Char.isWhitespace).reverse.dropWhile Char.isWhitespace).reverse⟩

/-- Model of Python `str.lower()`: lowercase every character. -/
def pyLower (s : String) : String :=
  ⟨s.data.map Char.toLower⟩

/-- First value bound to key `k` in an association list, if any. -/
def alGet {α : Type} : List (String × α) → String → Option α
  | [], _ => none
  | p :: rest, k => if p.1 = k then some p.2 else alGet rest k

/-- Bind key `k` to `v`: overwrite the first binding of `k`, or append one. -/
def alSet {α : Type} : List (String × α) → String → α → List (String × α)
  | [], k, v => [(k, v)]
  | p :: rest, k, v => if p.1 = k then (k, v) :: rest else p :: alSet rest k v

/-- Firestore `update`: merge a list of field-path/value pairs into a document,
leaving all other fields untouched. -/
def applyUpdate (d : Doc) (u : List (String × String)) : Doc :=
  u.foldl (fun acc kv => alSet acc kv.1 kv.2) d

theorem alGet_alSet_eq {α : Type} (l : List (String × α)) (k : String) (v : α) :
    alGet (alSet l k v) k = some v := by
  induction l with
  | nil => simp [alGet, alSet]
  | cons p rest ih =>
    by_cases h : p.1 = k
    · simp [alGet, alSet, h]
    · simp [alGet, alSet, h, ih]

theorem alGet_alSet_ne {α : Type} (l : List (String × α)) (k k0 : String) (v : α)
    (h : k ≠ k0) : alGet (alSet l k0 v) k = alGet l k := by
  induction l with
  | nil => simp [alGet, alSet, Ne.symm h]
  | cons p rest ih =>
    by_cases hp : p.1 = k0
    · subst hp
      simp [alGet, alSet, Ne.symm h]
    · simp only [alSet, if_neg hp, alGet, ih]

theorem applyUpdate_frame (u : List (String × String)) (d : Doc) (k : String)
    (h : k ∉ u.map Prod.fst) : alGet (applyUpdate d u) k = alGet d k := by
  induction u generalizing d with
  | nil => rfl
  | cons kv rest ih =>
    simp only [List.map_cons, List.mem_cons, not_or] at h
    have step : applyUpdate d (kv :: rest) = applyUpdate (alSet d kv.1 kv.2) rest := rfl
    rw [step, ih _ h.2, alGet_alSet_ne _ _ _ _ h.1]

/-! ## Driver dashboard transitions (`drivertest.py` lines 64–100)

The driver page branches on `data["status"]`: for `"pending"` it offers
Accept and Reject (the latter requiring a non-blank reason, stripped before it
is stored), for `"accepted"` it offers In Transit, for `"in_transit"` it
offers Delivered; for any other status no action is offered. -/

/-- The actions a driver can take on a delivery. -/
inductive Action where
  | accept
  | reject (reason : String)
  | markInTransit
  | markDelivered
deriving DecidableEq

/-- Transition failures: the action is not offered for the current status, or
a rejection was submitted with a blank reason (the code performs no update). -/
inductive TErr where
  | invalidTransition
  | missingReason
deriving DecidableEq

/-- The field-path updates the driver page performs for an action, given the
current status string, mirroring the `if/elif` chain on `data["status"]`. -/
def transitionUpdates (status : String) (a : Action) (now : String) :
    Except TErr (List (String × String)) :=
  if status = "pending" then
    match a with
    | .accept => .ok [("status", "accepted"), ("timestamps.accepted", now)]
    | .reject reason =>
        if pyStrip reason = "" then .error .missingReason
        else .ok [("status", "rejected"), ("rejection_reason", pyStrip reason),
                  ("timestamps.rejected", now)]
    | _ => .error .invalidTransition
  else if status = "accepted" then
    match a with
    | .markInTransit => .ok [("status", "in_transit"), ("timestamps.in_transit", now)]
    | _ => .error .invalidTransition
  else if status = "in_transit" then
    match a with
    | .markDelivered => .ok [("status", "delivered"), ("timestamps.delivered", now)]
    | _ => .error .invalidTransition
  else .error .invalidTransition

/-- Apply a driver action to a delivery document. -/
def transitionDoc (d : Doc) (a : Action) (now : String) : Except TErr Doc :=
  (transitionUpdates ((alGet d "status").getD "") a now).map (applyUpdate d)

/-- The document after attempting a transition: unchanged on failure. -/
def transitionResult (d : Doc) (a : Action) (now : String) : Doc :=
  match transitionDoc d a now with
  | .ok d' => d'
  | .error _ => d

/-- The driver dashboard query (`drivertest.py` lines 46–49): a delivery is
listed iff its `driver_code` equals the code entered and its `status` is one
of `"pending"`, `"accepted"`, `"in_transit"`. -/
def driverVisible (driverCode : String) (d : Doc) : Bool :=
  (alGet d "driver_code" == some driverCode) &&
  (["pending", "accepted", "in_transit"].contains ((alGet d "status").getD ""))

/-- The action/state pairs of the transition table in spec §4.1, written over
the code's status strings (spec comparison definition). -/
def tableAllows (status : String) (a : Action) : Bool :=
  match a with
  | .accept => status == "pending"
  | .reject _ => status == "pending"
  | .markInTransit => status == "accepted"
  | .markDelivered => status == "in_transit"

/-! ## Dispatcher: assign delivery (`dispatcher.py` lines 83–126)

`assign_delivery` validates that client, location and (stripped) invoice are
non-empty, runs an exact-match duplicate query on the `invoice` field, and on
success adds a document with status `"Assigned"`; afterwards, if the chosen
driver has a non-empty `fcm_token` on file, a push notification is dispatched
on a separate thread whose worker swallows every exception. -/

/-- Failures of the assign-delivery form: missing details, or duplicate invoice. -/
inductive CreateErr where
  | missingFields
  | duplicateInvoice
deriving DecidableEq

/-- The document inserted for a new delivery (`delivery_data` in the source). -/
def delivery_data (client location invoice driver now : String) : Doc :=
  [("client", client), ("location", location), ("invoice", invoice),
   ("driver_code", driver), ("status", "Assigned"), ("time", now)]

/-- The assign-delivery button handler: validation, duplicate-invoice check
(exact match on the stripped invoice), then insert.  Returns the new store
contents and the inserted document. -/
def assign_delivery (store : List Doc) (client location invoiceRaw driver now : String) :
    Except CreateErr (List Doc × Doc) :=
  if client = "" ∨ location = "" ∨ pyStrip invoiceRaw = "" then .error .missingFields
  else if store.any (fun dd => alGet dd "invoice" == some (pyStrip invoiceRaw)) then
    .error .duplicateInvoice
  else .ok (store ++ [delivery_data client location (pyStrip invoiceRaw) driver now],
            delivery_data client location (pyStrip invoiceRaw) driver now)

/-- The deliveries store after an assign-delivery attempt: unchanged on failure. -/
def assign_store_after (store : List Doc) (client location invoiceRaw driver now : String) :
    List Doc :=
  match assign_delivery store client location invoiceRaw driver now with
  | .ok (s', _) => s'
  | .error _ => store

/-- What the driver dashboard shows as the client (`data.get('client_name')`). -/
def driver_display_client (d : Doc) : Option String := alGet d "client_name"

/-- What the driver dashboard shows as the invoice (`data.get('invoice_number')`). -/
def driver_display_invoice (d : Doc) : Option String := alGet d "invoice_number"

/-! ## Push notification dispatch (`dispatcher.py` lines 35–53, 117–124) -/

/-- Outcome of the HTTP post inside the notification worker: either a response
arrived or an exception was raised. -/
inductive PushOutcome where
  | response (text : String)
  | exc (msg : String)
deriving DecidableEq

/-- The worker body: it prints the response on success and catches every
exception, printing the error; either way it only produces a log line. -/
def send_push_worker : PushOutcome → String
  | .response t => "Push response: " ++ t
  | .exc e => "Push error: " ++ e

/-- The token the assign handler uses: `drivers[driver_choice].get("fcm_token")`
followed by a Python truthiness test (`if token:`). -/
def lookupToken (drivers : List (String × Doc)) (code : String) : Option String :=
  match alGet ((alGet drivers code).getD []) "fcm_token" with
  | none => none
  | some t => if t = "" then none else some t

/-- Assign-delivery together with the notification side channel: the business
result paired with the worker's log line (if a notification was dispatched),
under a given outcome `o` of the network call. -/
def assign_delivery_withPush (drivers : List (String × Doc)) (store : List Doc)
    (client location invoiceRaw driver now : String) (o : PushOutcome) :
    Except CreateErr (List Doc × Doc) × Option String :=
  match assign_delivery store client location invoiceRaw driver now with
  | .error e => (.error e, none)
  | .ok r =>
      match lookupToken drivers driver with
      | some _ => (.ok r, some (send_push_worker o))
      | none => (.ok r, none)

/-! ## Driver registry (`dispatcher.py` lines 56–75; `drivertest.py` lines 39–44) -/

/-- Failure of the dispatcher's Save Driver form: name or code missing. -/
inductive SaveErr where
  | missingNameOrCode
deriving DecidableEq

/-- The dispatcher's Save Driver handler: requires non-blank name and code and
then `set`s the driver document (no merge: the whole document is replaced). -/
def manage_drivers_save (s : List (String × Doc)) (nameRaw codeRaw phoneRaw tokenRaw : String) :
    Except SaveErr (List (String × Doc)) :=
  if pyStrip nameRaw = "" ∨ pyLower (pyStrip codeRaw) = "" then .error .missingNameOrCode
  else .ok (alSet s (pyLower (pyStrip codeRaw))
      [("name", pyStrip nameRaw), ("code", pyLower (pyStrip codeRaw)),
       ("phone", pyStrip phoneRaw), ("fcm_token", pyStrip tokenRaw)])

/-- The driver page's token registration: stops if the code is blank, skips the
write if the token is blank, and otherwise `set`s with `merge=True`, merging
`fcm_token` and `last_seen` into the existing document. -/
def driver_token_upsert (s : List (String × Doc)) (codeRaw tokenRaw now : String) :
    List (String × Doc) :=
  if pyLower (pyStrip codeRaw) = "" then s
  else if pyStrip tokenRaw = "" then s
  else alSet s (pyLower (pyStrip codeRaw))
      (applyUpdate ((alGet s (pyLower (pyStrip codeRaw))).getD [])
        [("fcm_token", pyStrip tokenRaw), ("last_seen", now)])

/-! ## Listing search filter (`dispatcher.py` lines 167, 180–184) -/

/-- Substring containment on the character lists of two strings. -/
def strContains (s sub : String) : Bool :=
  (List.range (s.data.length + 1)).any (fun i => (s.data.drop i).take sub.data.length == sub.data)

/-- Whether one field value, lowered, contains the search text; a missing
field never matches (`na=False`). -/
def fieldMatches (t : String) : Option String → Bool
  | some v => strContains (pyLower v) t
  | none => false

/-- One row of the search filter: the lowered client or the lowered invoice
contains the search text (itself stripped and lowered on input). -/
def searchRowMatches (searchRaw : String) (d : Doc) : Bool :=
  fieldMatches (pyLower (pyStrip searchRaw)) (alGet d "client") ||
  fieldMatches (pyLower (pyStrip searchRaw)) (alGet d "invoice")

theorem strContains_self (s : String) : strContains s s = true := by
  unfold strContains
  apply List.any_eq_true.2
  refine ⟨0, List.mem_range.2 (Nat.succ_pos _), ?_⟩
  simp

/-! ## Claim C1 -/

/-- C1 counterexample: the (Pending, Reject) pair is in the §4.1 table, yet the
transition does not succeed when the submitted reason is blank — the code
performs no update (modelled as `missingReason`), so "succeeds exactly when the
pair is in the table" is false as stated. -/
theorem C1_counterexample :
    tableAllows "pending" (Action.reject "  ") = true ∧
    transitionUpdates "pending" (Action.reject "  ") "t0" =
      Except.error TErr.missingReason := by
  decide

theorem transitionUpdates_not_allowed (status : String) (a : Action) (now : String)
    (h : tableAllows status a = false) :
    transitionUpdates status a now = Except.error TErr.invalidTransition := by
  by_cases h1 : status = "pending" <;>
    by_cases h2 : status = "accepted" <;>
      by_cases h3 : status = "in_transit" <;>
        cases a <;>
          simp_all [tableAllows, transitionUpdates]

theorem transitionUpdates_isOk_iff (status : String) (a : Action) (now : String) :
    (transitionUpdates status a now).isOk = true ↔
      (tableAllows status a = true ∧ ∀ r, a = Action.reject r → pyStrip r ≠ "") := by
  cases a with
  | reject r =>
      by_cases hr : pyStrip r = "" <;>
        by_cases h1 : status = "pending" <;>
          by_cases h2 : status = "accepted" <;>
            by_cases h3 : status = "in_transit" <;>
              simp_all [tableAllows, transitionUpdates, Except.isOk, Except.toBool]
  | accept =>
      by_cases h1 : status = "pending" <;>
        by_cases h2 : status = "accepted" <;>
          by_cases h3 : status = "in_transit" <;>
            simp_all [tableAllows, transitionUpdates, Except.isOk, Except.toBool]
  | markInTransit =>
      by_cases h1 : status = "pending" <;>
        by_cases h2 : status = "accepted" <;>
          by_cases h3 : status = "in_transit" <;>
            simp_all [tableAllows, transitionUpdates, Except.isOk, Except.toBool]
  | markDelivered =>
      by_cases h1 : status = "pending" <;>
        by_cases h2 : status = "accepted" <;>
          by_cases h3 : status = "in_transit" <;>
            simp_all [tableAllows, transitionUpdates, Except.isOk, Except.toBool]

theorem tableAllows_terminal (status : String) (a : Action)
    (h : status = "delivered" ∨ status = "rejected") : tableAllows status a = false := by
  rcases h with rfl | rfl <;> cases a <;> rfl

/-- C1 (amended): a driver transition succeeds exactly when the
(status, action) pair is in the §4.1 table AND, for Reject, the submitted
reason is non-blank; every pair outside the table fails with
InvalidTransition, and in particular the terminal statuses `delivered` and
`rejected` admit no transition at all. -/
theorem C1_transition_table (status : String) (a : Action) (now : String) :
    ((transitionUpdates status a now).isOk = true ↔
        (tableAllows status a = true ∧ ∀ r, a = Action.reject r → pyStrip r ≠ "")) ∧
    (tableAllows status a = false →
        transitionUpdates status a now = Except.error TErr.invalidTransition) ∧
    ((status = "delivered" ∨ status = "rejected") →
        transitionUpdates status a now = Except.error TErr.invalidTransition) :=
  ⟨transitionUpdates_isOk_iff status a now,
   transitionUpdates_not_allowed status a now,
   fun h => transitionUpdates_not_allowed status a now (tableAllows_terminal status a h)⟩

/-- C1 witness: the amended theorem applied at the terminal status
`delivered` with the Accept action. -/
theorem C1_transition_table_witness :
    transitionUpdates "delivered" Action.accept "t0" =
      Except.error TErr.invalidTransition :=
  (C1_transition_table "delivered" Action.accept "t0").2.2 (Or.inl rfl)

/-! ## Claims C2–C4 -/

theorem assign_delivery_ok {store : List Doc} {c l i d now : String} {s' : List Doc} {doc : Doc}
    (h : assign_delivery store c l i d now = Except.ok (s', doc)) :
    c ≠ "" ∧ l ≠ "" ∧ pyStrip i ≠ "" ∧
    store.any (fun dd => alGet dd "invoice" == some (pyStrip i)) = false ∧
    s' = store ++ [delivery_data c l (pyStrip i) d now] ∧
    doc = delivery_data c l (pyStrip i) d now := by
  unfold assign_delivery at h
  split at h
  · exact absurd h (by simp)
  · split at h
    · exact absurd h (by simp)
    · rename_i hval hdup
      push_neg at hval
      simp only [Except.ok.injEq, Prod.mk.injEq] at h
      exact ⟨hval.1, hval.2.1, hval.2.2, by simpa using hdup, h.1.symm, h.2.symm⟩

/-- C2 counterexample: a successful createDelivery at concrete inputs inserts
a record whose status is `"Assigned"` — not `Pending` in either casing used
anywhere in the source — so the claim fails as stated. -/
theorem C2_counterexample :
    assign_delivery [] "Acme" "5th Ave" "INV-1" "d1" "t0" =
      Except.ok ([delivery_data "Acme" "5th Ave" "INV-1" "d1" "t0"],
                 delivery_data "Acme" "5th Ave" "INV-1" "d1" "t0") ∧
    alGet (delivery_data "Acme" "5th Ave" "INV-1" "d1" "t0") "status" = some "Assigned" ∧
    ("Assigned" : String) ≠ "Pending" ∧ ("Assigned" : String) ≠ "pending" := by
  decide

/-- C2 (amended): whenever createDelivery succeeds, the record it inserts has
status `"Assigned"` and a creation time field equal to the current time. -/
theorem C2_created_status (store : List Doc) (c l i d now : String) (s' : List Doc) (doc : Doc)
    (h : assign_delivery store c l i d now = Except.ok (s', doc)) :
    alGet doc "status" = some "Assigned" ∧ alGet doc "time" = some now := by
  obtain ⟨-, -, -, -, -, rfl⟩ := assign_delivery_ok h
  exact ⟨rfl, rfl⟩

/-- C2 witness: the amended theorem at a concrete successful creation. -/
theorem C2_created_status_witness :
    alGet (delivery_data "Acme" "5th Ave" "INV-1" "d1" "t0") "status" = some "Assigned" ∧
    alGet (delivery_data "Acme" "5th Ave" "INV-1" "d1" "t0") "time" = some "t0" :=
  C2_created_status [] "Acme" "5th Ave" "INV-1" "d1" "t0"
    [delivery_data "Acme" "5th Ave" "INV-1" "d1" "t0"]
    (delivery_data "Acme" "5th Ave" "INV-1" "d1" "t0") (by decide)

/-- C3: every delivery the dispatcher creates is stored with status
`"Assigned"`, which is not among the statuses the driver dashboard queries,
so it is listed for no driver and no driver transition ever applies to it. -/
theorem C3_dispatcher_invisible (store : List Doc) (c l i d now : String)
    (s' : List Doc) (doc : Doc)
    (h : assign_delivery store c l i d now = Except.ok (s', doc)) :
    alGet doc "status" = some "Assigned" ∧
    (["pending", "accepted", "in_transit"].contains "Assigned") = false ∧
    (∀ dc, driverVisible dc doc = false) ∧
    (∀ a t, transitionDoc doc a t = Except.error TErr.invalidTransition) := by
  obtain ⟨-, -, -, -, -, rfl⟩ := assign_delivery_ok h
  refine ⟨rfl, rfl, ?_, ?_⟩
  · intro dc
    unfold driverVisible
    rw [show (["pending", "accepted", "in_transit"].contains
          ((alGet (delivery_data c l (pyStrip i) d now) "status").getD "")) = false from rfl,
        Bool.and_false]
  · intro a t
    unfold transitionDoc
    rw [show (alGet (delivery_data c l (pyStrip i) d now) "status").getD "" = "Assigned" from rfl,
        transitionUpdates_not_allowed "Assigned" a t (by cases a <;> rfl)]
    rfl

/-- C3 witness: the theorem at a concrete successful creation. -/
theorem C3_dispatcher_invisible_witness :
    driverVisible "d1" (delivery_data "Acme" "5th Ave" "INV-1" "d1" "t0") = false :=
  ((C3_dispatcher_invisible [] "Acme" "5th Ave" "INV-1" "d1" "t0"
    [delivery_data "Acme" "5th Ave" "INV-1" "d1" "t0"]
    (delivery_data "Acme" "5th Ave" "INV-1" "d1" "t0") (by decide)).2.2.1) "d1"

/-- C4: after a successful createDelivery with invoice `i`, a sequential
second createDelivery with the same invoice fails with DuplicateInvoice and
leaves the store unchanged; the duplicate check is the exact-match query on
the `invoice` field of the store, which the inserted record now satisfies. -/
theorem C4_duplicate_invoice (store : List Doc) (c l i d now c2 l2 d2 now2 : String)
    (s' : List Doc) (doc : Doc)
    (h : assign_delivery store c l i d now = Except.ok (s', doc))
    (hc2 : c2 ≠ "") (hl2 : l2 ≠ "") :
    assign_delivery s' c2 l2 i d2 now2 = Except.error CreateErr.duplicateInvoice ∧
    assign_store_after s' c2 l2 i d2 now2 = s' ∧
    s'.any (fun dd => alGet dd "invoice" == some (pyStrip i)) = true := by
  obtain ⟨hc, hl, hi, hdup, rfl, rfl⟩ := assign_delivery_ok h
  have hany : (store ++ [delivery_data c l (pyStrip i) d now]).any
      (fun dd => alGet dd "invoice" == some (pyStrip i)) = true := by
    apply List.any_eq_true.2
    refine ⟨delivery_data c l (pyStrip i) d now, by simp, ?_⟩
    simp [delivery_data, alGet]
  have hass : assign_delivery (store ++ [delivery_data c l (pyStrip i) d now]) c2 l2 i d2 now2 =
      Except.error CreateErr.duplicateInvoice := by
    unfold assign_delivery
    rw [if_neg (by simp [hc2, hl2, hi]), if_pos hany]
  refine ⟨hass, ?_, hany⟩
  unfold assign_store_after
  rw [hass]

/-- C4 witness: the INV-9 scenario from spec §8 — the second sequential
creation with the same invoice fails. -/
theorem C4_duplicate_invoice_witness :
    assign_delivery [delivery_data "Acme" "5th Ave" "INV-9" "d1" "t0"]
        "Bob" "Main St" "INV-9" "d2" "t1" = Except.error CreateErr.duplicateInvoice :=
  (C4_duplicate_invoice [] "Acme" "5th Ave" "INV-9" "d1" "t0" "Bob" "Main St" "d2" "t1"
    [delivery_data "Acme" "5th Ave" "INV-9" "d1" "t0"]
    (delivery_data "Acme" "5th Ave" "INV-9" "d1" "t0")
    (by decide) (by decide) (by decide)).1

/-! ## Claims C5–C7 -/

/-- C5 counterexample: rejecting a pending delivery with the non-blank reason
`" late "` stores the stripped string `"late"` as the rejection reason — not
the given reason verbatim — so the claim fails as stated. -/
theorem C5_counterexample :
    transitionUpdates "pending" (Action.reject " late ") "t0" =
      Except.ok [("status", "rejected"), ("rejection_reason", "late"),
                 ("timestamps.rejected", "t0")] ∧
    ("late" : String) ≠ " late " := by
  decide

/-- C5 (amended): for a delivery in status `pending`, Reject with a blank
(empty or whitespace-only) reason fails with MissingReason and changes
nothing; Reject with a non-blank reason sets the status to `rejected` and
stores `rejection_reason` equal to the given reason with leading and trailing
whitespace stripped. -/
theorem C5_reject (d : Doc) (reason now : String)
    (hp : alGet d "status" = some "pending") :
    (pyStrip reason = "" →
      transitionDoc d (Action.reject reason) now = Except.error TErr.missingReason ∧
      transitionResult d (Action.reject reason) now = d) ∧
    (pyStrip reason ≠ "" → ∃ d',
      transitionDoc d (Action.reject reason) now = Except.ok d' ∧
      alGet d' "status" = some "rejected" ∧
      alGet d' "rejection_reason" = some (pyStrip reason)) := by
  have hst : (alGet d "status").getD "" = "pending" := by rw [hp]; rfl
  constructor
  · intro hb
    have ht : transitionDoc d (Action.reject reason) now = Except.error TErr.missingReason := by
      unfold transitionDoc
      rw [hst]
      simp [transitionUpdates, hb, Except.map]
    exact ⟨ht, by unfold transitionResult; rw [ht]⟩
  · intro hb
    refine ⟨applyUpdate d [("status", "rejected"), ("rejection_reason", pyStrip reason),
        ("timestamps.rejected", now)], ?_, ?_, ?_⟩
    · unfold transitionDoc
      rw [hst]
      simp [transitionUpdates, hb, Except.map]
    · show alGet (alSet (alSet (alSet d "status" "rejected") "rejection_reason"
          (pyStrip reason)) "timestamps.rejected" now) "status" = some "rejected"
      rw [alGet_alSet_ne _ _ _ _ (by decide), alGet_alSet_ne _ _ _ _ (by decide),
          alGet_alSet_eq]
    · show alGet (alSet (alSet (alSet d "status" "rejected") "rejection_reason"
          (pyStrip reason)) "timestamps.rejected" now) "rejection_reason" = some (pyStrip reason)
      rw [alGet_alSet_ne _ _ _ _ (by decide), alGet_alSet_eq]

/-- C5 witness: the amended theorem at a concrete pending delivery and a
reason with surrounding whitespace. -/
theorem C5_reject_witness :
    ∃ d', transitionDoc [("status", "pending")] (Action.reject " late ") "t0" = Except.ok d' ∧
      alGet d' "status" = some "rejected" ∧
      alGet d' "rejection_reason" = some (pyStrip " late ") :=
  (C5_reject [("status", "pending")] " late " "t0" (by decide)).2 (by decide)

/-- C6: the dispatcher stores the client under key `client` and the invoice
under `invoice`, while the driver dashboard reads `client_name` and
`invoice_number`; for every dispatcher-created delivery both reads are None. -/
theorem C6_key_mismatch (store : List Doc) (c l i d now : String) (s' : List Doc) (doc : Doc)
    (h : assign_delivery store c l i d now = Except.ok (s', doc)) :
    alGet doc "client" = some c ∧
    alGet doc "invoice" = some (pyStrip i) ∧
    driver_display_client doc = none ∧
    driver_display_invoice doc = none := by
  obtain ⟨-, -, -, -, -, rfl⟩ := assign_delivery_ok h
  exact ⟨rfl, rfl, rfl, rfl⟩

/-- C6 witness: the theorem at a concrete successful creation. -/
theorem C6_key_mismatch_witness :
    driver_display_client (delivery_data "Acme" "5th Ave" "INV-1" "d1" "t0") = none ∧
    driver_display_invoice (delivery_data "Acme" "5th Ave" "INV-1" "d1" "t0") = none :=
  ⟨(C6_key_mismatch [] "Acme" "5th Ave" "INV-1" "d1" "t0"
      [delivery_data "Acme" "5th Ave" "INV-1" "d1" "t0"]
      (delivery_data "Acme" "5th Ave" "INV-1" "d1" "t0") (by decide)).2.2.1,
   (C6_key_mismatch [] "Acme" "5th Ave" "INV-1" "d1" "t0"
      [delivery_data "Acme" "5th Ave" "INV-1" "d1" "t0"]
      (delivery_data "Acme" "5th Ave" "INV-1" "d1" "t0") (by decide)).2.2.2⟩

/-- C7: the push-notification outcome is invisible to the caller — the
business result of assign-delivery is identical under every outcome of the
dispatch (so a creation that succeeded still reports success), and the worker
turns any exception into a log line only. -/
theorem C7_push_best_effort (drivers : List (String × Doc)) (store : List Doc)
    (c l i d now : String) (o o2 : PushOutcome) :
    (assign_delivery_withPush drivers store c l i d now o).1 =
      assign_delivery store c l i d now ∧
    (assign_delivery_withPush drivers store c l i d now o).1 =
      (assign_delivery_withPush drivers store c l i d now o2).1 ∧
    (∀ e, send_push_worker (PushOutcome.exc e) = "Push error: " ++ e) := by
  have key : ∀ o', (assign_delivery_withPush drivers store c l i d now o').1 =
      assign_delivery store c l i d now := by
    intro o'
    unfold assign_delivery_withPush
    rcases assign_delivery store c l i d now with e | r
    · rfl
    · rcases lookupToken drivers d with _ | t <;> rfl
  exact ⟨key o, (key o).trans (key o2).symm, fun e => rfl⟩

/-! ## Claim C8 -/

theorem transitionDoc_ok {d : Doc} {a : Action} {now : String} {d' : Doc}
    (h : transitionDoc d a now = Except.ok d') :
    ∃ u, transitionUpdates ((alGet d "status").getD "") a now = Except.ok u ∧
      d' = applyUpdate d u := by
  unfold transitionDoc at h
  cases htu : transitionUpdates ((alGet d "status").getD "") a now with
  | error e => rw [htu] at h; exact absurd h (by simp [Except.map])
  | ok u =>
      rw [htu] at h
      simp only [Except.map, Except.ok.injEq] at h
      exact ⟨u, rfl, h.symm⟩

theorem applyUpdate_changed_mem (d : Doc) (u : List (String × String)) (k : String)
    (h : alGet (applyUpdate d u) k ≠ alGet d k) : k ∈ u.map Prod.fst := by
  by_contra hk
  exact h (applyUpdate_frame u d k hk)

theorem transitionUpdates_ok_shape {st : String} {a : Action} {now : String}
    {u : List (String × String)}
    (htu : transitionUpdates st a now = Except.ok u) :
    (u = [("status", "accepted"), ("timestamps.accepted", now)]) ∨
    (∃ r, a = Action.reject r ∧
      u = [("status", "rejected"), ("rejection_reason", pyStrip r),
           ("timestamps.rejected", now)]) ∨
    (u = [("status", "in_transit"), ("timestamps.in_transit", now)]) ∨
    (u = [("status", "delivered"), ("timestamps.delivered", now)]) := by
  cases a with
  | accept =>
      simp only [transitionUpdates] at htu
      split at htu
      · simp only [Except.ok.injEq] at htu
        exact Or.inl htu.symm
      · split at htu
        · simp at htu
        · split at htu
          · simp at htu
          · simp at htu
  | reject r =>
      simp only [transitionUpdates] at htu
      split at htu
      · split at htu
        · simp at htu
        · simp only [Except.ok.injEq] at htu
          exact Or.inr (Or.inl ⟨r, rfl, htu.symm⟩)
      · split at htu
        · simp at htu
        · split at htu
          · simp at htu
          · simp at htu
  | markInTransit =>
      simp only [transitionUpdates] at htu
      split at htu
      · simp at htu
      · split at htu
        · simp only [Except.ok.injEq] at htu
          exact Or.inr (Or.inr (Or.inl htu.symm))
        · split at htu
          · simp at htu
          · simp at htu
  | markDelivered =>
      simp only [transitionUpdates] at htu
      split at htu
      · simp at htu
      · split at htu
        · simp at htu
        · split at htu
          · simp only [Except.ok.injEq] at htu
            exact Or.inr (Or.inr (Or.inr htu.symm))
          · simp at htu

/-- C8: a successful driver transition updates only the status, the
timestamps entry for the new status (stamped with the current time), and —
for Reject only — the rejection reason: every key other than `status`, than
`timestamps.` followed by the new status, and (when the action is a Reject)
than `rejection_reason`, is unchanged; in particular the invoice, client,
location and assigned-driver fields are unchanged, and the rejection reason
is unchanged for every non-Reject action. -/
theorem C8_frame (d : Doc) (a : Action) (now : String) (d' : Doc)
    (h : transitionDoc d a now = Except.ok d') :
    alGet d' "invoice" = alGet d "invoice" ∧
    alGet d' "client" = alGet d "client" ∧
    alGet d' "location" = alGet d "location" ∧
    alGet d' "driver_code" = alGet d "driver_code" ∧
    (∃ s', alGet d' "status" = some s' ∧ alGet d' ("timestamps." ++ s') = some now ∧
      (∀ k, k ≠ "status" → k ≠ "timestamps." ++ s' →
        (∀ r, a = Action.reject r → k ≠ "rejection_reason") →
        alGet d' k = alGet d k)) ∧
    ((∀ r, a ≠ Action.reject r) →
      alGet d' "rejection_reason" = alGet d "rejection_reason") := by
  obtain ⟨u, htu, rfl⟩ := transitionDoc_ok h
  rcases transitionUpdates_ok_shape htu with rfl | ⟨r, ha, rfl⟩ | rfl | rfl
  · have e1 : applyUpdate d [("status", "accepted"), ("timestamps.accepted", now)] =
        alSet (alSet d "status" "accepted") "timestamps.accepted" now := rfl
    have ekey : ("timestamps." ++ "accepted" : String) = "timestamps.accepted" := by decide
    rw [e1]
    refine ⟨?_, ?_, ?_, ?_, ⟨"accepted", ?_, ?_, ?_⟩, fun _ => ?_⟩
    · rw [alGet_alSet_ne _ _ _ _ (by decide), alGet_alSet_ne _ _ _ _ (by decide)]
    · rw [alGet_alSet_ne _ _ _ _ (by decide), alGet_alSet_ne _ _ _ _ (by decide)]
    · rw [alGet_alSet_ne _ _ _ _ (by decide), alGet_alSet_ne _ _ _ _ (by decide)]
    · rw [alGet_alSet_ne _ _ _ _ (by decide), alGet_alSet_ne _ _ _ _ (by decide)]
    · rw [alGet_alSet_ne _ _ _ _ (by decide), alGet_alSet_eq]
    · rw [ekey, alGet_alSet_eq]
    · intro k hk1 hk2 _
      rw [ekey] at hk2
      rw [alGet_alSet_ne _ _ _ _ hk2, alGet_alSet_ne _ _ _ _ hk1]
    · rw [alGet_alSet_ne _ _ _ _ (by decide), alGet_alSet_ne _ _ _ _ (by decide)]
  · have e1 : applyUpdate d [("status", "rejected"), ("rejection_reason", pyStrip r),
        ("timestamps.rejected", now)] =
        alSet (alSet (alSet d "status" "rejected") "rejection_reason" (pyStrip r))
          "timestamps.rejected" now := rfl
    have ekey : ("timestamps." ++ "rejected" : String) = "timestamps.rejected" := by decide
    rw [e1]
    refine ⟨?_, ?_, ?_, ?_, ⟨"rejected", ?_, ?_, ?_⟩, fun hne => absurd ha (hne r)⟩
    · rw [alGet_alSet_ne _ _ _ _ (by decide), alGet_alSet_ne _ _ _ _ (by decide),
          alGet_alSet_ne _ _ _ _ (by decide)]
    · rw [alGet_alSet_ne _ _ _ _ (by decide), alGet_alSet_ne _ _ _ _ (by decide),
          alGet_alSet_ne _ _ _ _ (by decide)]
    · rw [alGet_alSet_ne _ _ _ _ (by decide), alGet_alSet_ne _ _ _ _ (by decide),
          alGet_alSet_ne _ _ _ _ (by decide)]
    · rw [alGet_alSet_ne _ _ _ _ (by decide), alGet_alSet_ne _ _ _ _ (by decide),
          alGet_alSet_ne _ _ _ _ (by decide)]
    · rw [alGet_alSet_ne _ _ _ _ (by decide), alGet_alSet_ne _ _ _ _ (by decide),
          alGet_alSet_eq]
    · rw [ekey, alGet_alSet_eq]
    · intro k hk1 hk2 hk3
      rw [ekey] at hk2
      have hkr : k ≠ "rejection_reason" := hk3 r ha
      rw [alGet_alSet_ne _ _ _ _ hk2, alGet_alSet_ne _ _ _ _ hkr,
          alGet_alSet_ne _ _ _ _ hk1]
  · have e1 : applyUpdate d [("status", "in_transit"), ("timestamps.in_transit", now)] =
        alSet (alSet d "status" "in_transit") "timestamps.in_transit" now := rfl
    have ekey : ("timestamps." ++ "in_transit" : String) = "timestamps.in_transit" := by decide
    rw [e1]
    refine ⟨?_, ?_, ?_, ?_, ⟨"in_transit", ?_, ?_, ?_⟩, fun _ => ?_⟩
    · rw [alGet_alSet_ne _ _ _ _ (by decide), alGet_alSet_ne _ _ _ _ (by decide)]
    · rw [alGet_alSet_ne _ _ _ _ (by decide), alGet_alSet_ne _ _ _ _ (by decide)]
    · rw [alGet_alSet_ne _ _ _ _ (by decide), alGet_alSet_ne _ _ _ _ (by decide)]
    · rw [alGet_alSet_ne _ _ _ _ (by decide), alGet_alSet_ne _ _ _ _ (by decide)]
    · rw [alGet_alSet_ne _ _ _ _ (by decide), alGet_alSet_eq]
    · rw [ekey, alGet_alSet_eq]
    · intro k hk1 hk2 _
      rw [ekey] at hk2
      rw [alGet_alSet_ne _ _ _ _ hk2, alGet_alSet_ne _ _ _ _ hk1]
    · rw [alGet_alSet_ne _ _ _ _ (by decide), alGet_alSet_ne _ _ _ _ (by decide)]
  · have e1 : applyUpdate d [("status", "delivered"), ("timestamps.delivered", now)] =
        alSet (alSet d "status" "delivered") "timestamps.delivered" now := rfl
    have ekey : ("timestamps." ++ "delivered" : String) = "timestamps.delivered" := by decide
    rw [e1]
    refine ⟨?_, ?_, ?_, ?_, ⟨"delivered", ?_, ?_, ?_⟩, fun _ => ?_⟩
    · rw [alGet_alSet_ne _ _ _ _ (by decide), alGet_alSet_ne _ _ _ _ (by decide)]
    · rw [alGet_alSet_ne _ _ _ _ (by decide), alGet_alSet_ne _ _ _ _ (by decide)]
    · rw [alGet_alSet_ne _ _ _ _ (by decide), alGet_alSet_ne _ _ _ _ (by decide)]
    · rw [alGet_alSet_ne _ _ _ _ (by decide), alGet_alSet_ne _ _ _ _ (by decide)]
    · rw [alGet_alSet_ne _ _ _ _ (by decide), alGet_alSet_eq]
    · rw [ekey, alGet_alSet_eq]
    · intro k hk1 hk2 _
      rw [ekey] at hk2
      rw [alGet_alSet_ne _ _ _ _ hk2, alGet_alSet_ne _ _ _ _ hk1]
    · rw [alGet_alSet_ne _ _ _ _ (by decide), alGet_alSet_ne _ _ _ _ (by decide)]

/-- C8 witness: accepting a concrete pending delivery leaves its invoice
field unchanged. -/
theorem C8_frame_witness :
    alGet [("status", "accepted"), ("invoice", "I"), ("timestamps.accepted", "t0")] "invoice" =
      alGet [("status", "pending"), ("invoice", "I")] "invoice" :=
  (C8_frame [("status", "pending"), ("invoice", "I")] Action.accept "t0"
    [("status", "accepted"), ("invoice", "I"), ("timestamps.accepted", "t0")] (by decide)).1

/-! ## Claims C9–C10 -/

/-- C9 counterexample: the dispatcher's Save Driver writes the driver document
with a plain `set` (no merge): starting from a record holding `fcm_token` and
`last_seen`, a save of the same driver succeeds but the resulting record has
no `last_seen` field, so fields not supplied are not preserved. -/
theorem C9_counterexample :
    manage_drivers_save [("d1", [("fcm_token", "T"), ("last_seen", "L")])]
        "Alice" "d1" "" "" =
      Except.ok [("d1", [("name", "Alice"), ("code", "d1"), ("phone", ""),
        ("fcm_token", "")])] ∧
    alGet ((alGet [("d1", [("name", "Alice"), ("code", "d1"), ("phone", ""),
        ("fcm_token", "")])] "d1").getD []) "last_seen" = none ∧
    alGet ((alGet [("d1", [("fcm_token", "T"), ("last_seen", "L")])] "d1").getD [])
        "last_seen" = some "L" := by
  decide

/-- C9 (amended): the registry has two write paths with different semantics.
The driver-side token upsert merges `fcm_token` and `last_seen` into the
record of the normalized driver code (creating it if absent), preserving every
other field, and writes nothing when the code or the token is blank.  The
dispatcher's Save Driver fails exactly when the stripped name or the
normalized code is empty, and otherwise replaces the driver's record entirely
with the four supplied fields, dropping fields not supplied. -/
theorem C9_registry (s : List (String × Doc)) (codeRaw tokenRaw now nameRaw phoneRaw : String) :
    ((pyLower (pyStrip codeRaw) = "" ∨ pyStrip tokenRaw = "") →
      driver_token_upsert s codeRaw tokenRaw now = s) ∧
    (pyLower (pyStrip codeRaw) ≠ "" → pyStrip tokenRaw ≠ "" →
      alGet ((alGet (driver_token_upsert s codeRaw tokenRaw now)
          (pyLower (pyStrip codeRaw))).getD []) "fcm_token" = some (pyStrip tokenRaw) ∧
      alGet ((alGet (driver_token_upsert s codeRaw tokenRaw now)
          (pyLower (pyStrip codeRaw))).getD []) "last_seen" = some now ∧
      (∀ k, k ≠ "fcm_token" → k ≠ "last_seen" →
        alGet ((alGet (driver_token_upsert s codeRaw tokenRaw now)
            (pyLower (pyStrip codeRaw))).getD []) k =
          alGet ((alGet s (pyLower (pyStrip codeRaw))).getD []) k)) ∧
    ((pyStrip nameRaw = "" ∨ pyLower (pyStrip codeRaw) = "") ↔
      manage_drivers_save s nameRaw codeRaw phoneRaw tokenRaw =
        Except.error SaveErr.missingNameOrCode) ∧
    (∀ res, manage_drivers_save s nameRaw codeRaw phoneRaw tokenRaw = Except.ok res →
      alGet res (pyLower (pyStrip codeRaw)) =
        some [("name", pyStrip nameRaw), ("code", pyLower (pyStrip codeRaw)),
              ("phone", pyStrip phoneRaw), ("fcm_token", pyStrip tokenRaw)]) := by
  refine ⟨?_, ?_, ⟨?_, ?_⟩, ?_⟩
  · intro h
    unfold driver_token_upsert
    by_cases hc : pyLower (pyStrip codeRaw) = ""
    · rw [if_pos hc]
    · rw [if_neg hc, if_pos (h.resolve_left hc)]
  · intro hc ht
    unfold driver_token_upsert
    rw [if_neg hc, if_neg ht, alGet_alSet_eq]
    simp only [Option.getD_some]
    have e1 : applyUpdate ((alGet s (pyLower (pyStrip codeRaw))).getD [])
        [("fcm_token", pyStrip tokenRaw), ("last_seen", now)] =
        alSet (alSet ((alGet s (pyLower (pyStrip codeRaw))).getD []) "fcm_token"
          (pyStrip tokenRaw)) "last_seen" now := rfl
    rw [e1]
    refine ⟨?_, alGet_alSet_eq _ _ _, ?_⟩
    · rw [alGet_alSet_ne _ _ _ _ (by decide), alGet_alSet_eq]
    · intro k hk1 hk2
      rw [alGet_alSet_ne _ _ _ _ hk2, alGet_alSet_ne _ _ _ _ hk1]
  · intro h
    unfold manage_drivers_save
    rw [if_pos h]
  · intro h
    by_cases hcond : pyStrip nameRaw = "" ∨ pyLower (pyStrip codeRaw) = ""
    · exact hcond
    · unfold manage_drivers_save at h
      rw [if_neg hcond] at h
      exact absurd h (by simp)
  · intro res h
    unfold manage_drivers_save at h
    split at h
    · exact absurd h (by simp)
    · simp only [Except.ok.injEq] at h
      rw [← h, alGet_alSet_eq]

/-- C9 witness: the amended theorem at a concrete driver-side token upsert. -/
theorem C9_registry_witness :
    alGet ((alGet (driver_token_upsert [("d1", [("name", "A")])] "D1" " tok " "t0")
        (pyLower (pyStrip "D1"))).getD []) "fcm_token" = some (pyStrip " tok ") :=
  ((C9_registry [("d1", [("name", "A")])] "D1" " tok " "t0" "N" "P").2.1
    (by decide) (by decide)).1

/-- C10: the duplicate-invoice check compares the stripped invoice by exact,
case-sensitive equality: with a stored invoice differing from a new one only
in letter case, both creations succeed — while the listing's search text
matches the stored invoice case-insensitively. -/
theorem C10_case_sensitive (x y c l d now c2 l2 d2 now2 : String)
    (hne : pyStrip x ≠ pyStrip y) (hcase : pyLower (pyStrip x) = pyLower (pyStrip y))
    (hx : pyStrip x ≠ "") (hy : pyStrip y ≠ "")
    (hc : c ≠ "") (hl : l ≠ "") (hc2 : c2 ≠ "") (hl2 : l2 ≠ "") :
    assign_delivery [] c l y d now =
      Except.ok ([delivery_data c l (pyStrip y) d now],
                 delivery_data c l (pyStrip y) d now) ∧
    (assign_delivery [delivery_data c l (pyStrip y) d now] c2 l2 x d2 now2).isOk = true ∧
    searchRowMatches x (delivery_data c l (pyStrip y) d now) = true := by
  have hinv : alGet (delivery_data c l (pyStrip y) d now) "invoice" = some (pyStrip y) := rfl
  have hcl : alGet (delivery_data c l (pyStrip y) d now) "client" = some c := rfl
  have hfalse : ([delivery_data c l (pyStrip y) d now].any
      (fun dd => alGet dd "invoice" == some (pyStrip x))) = false := by
    simp only [List.any_cons, List.any_nil, Bool.or_false, hinv]
    simp [Ne.symm hne]
  refine ⟨?_, ?_, ?_⟩
  · unfold assign_delivery
    rw [if_neg (by simp [hc, hl, hy]), if_neg (by simp)]
    rfl
  · have h2 : assign_delivery [delivery_data c l (pyStrip y) d now] c2 l2 x d2 now2 =
        Except.ok ([delivery_data c l (pyStrip y) d now,
            delivery_data c2 l2 (pyStrip x) d2 now2],
          delivery_data c2 l2 (pyStrip x) d2 now2) := by
      unfold assign_delivery
      rw [if_neg (by simp [hc2, hl2, hx]), if_neg (by simp [hfalse])]
      rfl
    rw [h2]
    rfl
  · unfold searchRowMatches
    rw [hinv, hcl]
    show (fieldMatches (pyLower (pyStrip x)) (some c) ||
      fieldMatches (pyLower (pyStrip x)) (some (pyStrip y))) = true
    simp only [fieldMatches]
    rw [hcase, strContains_self, Bool.or_true]

/-- C10 witness: invoices `"INV-9"` and `"inv-9"` differ only in case — the
second creation passes the duplicate check, and searching for `"inv-9"`
matches the stored `"INV-9"` row. -/
theorem C10_case_sensitive_witness :
    searchRowMatches "inv-9" (delivery_data "Acme" "L" (pyStrip "INV-9") "d1" "t0") = true :=
  (C10_case_sensitive "inv-9" "INV-9" "Acme" "L" "d1" "t0" "Bob" "M" "d2" "t1"
    (by decide) (by decide) (by decide) (by decide) (by decide) (by decide) (by decide)
    (by decide)).2.2

end Coninx
